import Mathlib

/-!
Verification development for the Echo repository.

The repository contains three server variants and one Go client:
  * `src/server/server.js` — a `ws` WebSocket server: the first frame of a
    connection is its username (guarded by a per-connection `hasUsername`
    flag), later frames are only logged; join/leave notices are broadcast.
  * `src/unnamed/part_005` (first file) — a socket.io server with a
    `register-username` event, a duplicate-username check against the
    `connectedUsers` map, a `message` event relayed to everyone, and a
    `disconnect` handler.
  * `src/unnamed/part_005` (second file) — a `ws` server where a
    `ws.once` handler consumes the first frame as the username and then
    installs the chat handler, which broadcasts `user: text` to every
    open connection.
  * `src/client/chat.go` — `connectWebsocket`, which dials, writes a JSON
    auth payload, reads one frame and fails on an `ERROR:`-prefixed text
    frame.

State is embedded as explicit structures, handlers as pure functions from
a state and an input event to the new state plus the list of emitted
network actions.  Wall-clock timestamps produced by `getTimestamp` are
not part of any modelled payload because no handler branches on them.
-/

/-- Connection identifiers (socket ids / `ws` object identities). -/
abbrev ConnId := Nat

/-- JavaScript `String.prototype.trim()` / the trimming done by
`data.toString().trim()`: strip whitespace from both ends.  Defined over
the character list so that it evaluates by `decide`. -/
def jsTrim (s : String) : String :=
  ⟨((s.data.dropWhile Char.isWhitespace).reverse.dropWhile Char.isWhitespace).reverse⟩

/-- Go `strings.HasPrefix` / the textual check used by the client, defined
over character lists. -/
def strStartsWith (s pre : String) : Bool :=
  pre.data.isPrefixOf s.data

/-- `s` contains `sub` as a contiguous substring (some tail of `s` starts
with `sub`). -/
def strContainsSub (s sub : String) : Bool :=
  s.data.tails.any (fun t => sub.data.isPrefixOf t)

/-- `Map.prototype.get` on a JS map embedded as an association list. -/
def mapGet (m : List (ConnId × String)) (k : ConnId) : Option String :=
  (m.find? (fun p => p.1 == k)).map Prod.snd

/-- `Map.prototype.set`: replace the value at an existing key, otherwise
append the new binding (JS maps keep insertion order). -/
def mapSet (m : List (ConnId × String)) (k : ConnId) (v : String) :
    List (ConnId × String) :=
  if m.any (fun p => p.1 == k) then
    m.map (fun p => if p.1 == k then (k, v) else p)
  else
    m ++ [(k, v)]

/-- `Map.prototype.delete`. -/
def mapDelete (m : List (ConnId × String)) (k : ConnId) :
    List (ConnId × String) :=
  m.filter (fun p => p.1 != k)

/-- A network action a server handler performs on a websocket. -/
inductive WsAction where
  | send (dest : ConnId) (frame : String)
  | close (c : ConnId)
deriving DecidableEq

/-! ## `src/server/server.js` — the `ws` variant with `hasUsername` -/

/-- One websocket as `server.js` sees it: identity, whether
`readyState === OPEN`, and the per-connection `hasUsername` flag. -/
structure WsConn where
  id : ConnId
  isOpen : Bool
  hasUsername : Bool
deriving DecidableEq

/-- The `server.js` server state: the set of sockets and the
`clients` map from connection to username. -/
structure WsState where
  conns : List WsConn
  clients : List (ConnId × String)
deriving DecidableEq

/-- `broadcast(message)` in `server.js`: send to every client whose
`readyState` is `OPEN`. -/
def wsBroadcast (conns : List WsConn) (msg : String) : List WsAction :=
  (conns.filter (fun c => c.isOpen)).map (fun c => WsAction.send c.id msg)

/-- The rejection frame sent for an empty username in `server.js`. -/
def emptyUsernameError : String :=
  "Error: Username cannot be empty. Please send a valid username."

/-- The `ws.on('message')` handler of `server.js`.  The first message is
treated as the username: empty after trimming is answered with
`emptyUsernameError` (connection left open, flag left unset); otherwise
the trimmed text is stored in `clients`, `hasUsername` is set, and a
`has joined` notice is broadcast.  Messages after authentication are only
logged: no send, no state change. -/
def wsHandleMessage (s : WsState) (cid : ConnId) (data : String) :
    WsState × List WsAction :=
  match s.conns.find? (fun c => c.id == cid) with
  | none => (s, [])
  | some c =>
    let message := jsTrim data
    if c.hasUsername = false then
      if message = "" then
        (s, [WsAction.send cid emptyUsernameError])
      else
        let s' : WsState :=
          { conns := s.conns.map
              (fun d => if d.id == cid then { d with hasUsername := true } else d),
            clients := mapSet s.clients cid message }
        (s', wsBroadcast s'.conns (message ++ " has joined"))
    else
      (s, [])

/-- The `ws.on('close')` handler of `server.js`.  The closing socket is no
longer `OPEN` when the event fires; if it had a username the handler
broadcasts a `has disconnected` notice and deletes the map entry. -/
def wsHandleClose (s : WsState) (cid : ConnId) : WsState × List WsAction :=
  let conns' := s.conns.map
    (fun d => if d.id == cid then { d with isOpen := false } else d)
  match mapGet s.clients cid with
  | some u =>
      ({ conns := conns', clients := mapDelete s.clients cid },
       wsBroadcast conns' (u ++ " has disconnected"))
  | none => ({ s with conns := conns' }, [])

/-- Modelled from the spec: the spec's Credential Store (username →
password hash, `isOnline` flag) has no counterpart anywhere in `src/` —
no server file declares or updates such a store.  The field `credStore`
records what a store would hold (username ↦ isOnline) so that claims
about `isOnline` updates can be stated; the source close handler, embedded
below, performs no store operation. -/
structure SysState where
  ws : WsState
  credStore : List (String × Bool)
deriving DecidableEq

/-- Connection close at the whole-system level: exactly the `server.js`
close handler; the source contains no credential-store update, so
`credStore` is untouched. -/
def sysHandleClose (st : SysState) (cid : ConnId) : SysState × List WsAction :=
  let r := wsHandleClose st.ws cid
  ({ ws := r.1, credStore := st.credStore }, r.2)

/-! ## `src/unnamed/part_005` (first file) — the socket.io variant -/

/-- A socket.io emission: to the registering socket itself, to everyone
except it (`socket.broadcast.emit`), or to everyone (`io.emit`).  Payload
fields are listed as strings; wall-clock timestamp fields are omitted. -/
inductive IoEmit where
  | toSelf (sock : ConnId) (event : String) (payload : List String)
  | broadcastExcept (sock : ConnId) (event : String) (payload : List String)
  | toAll (event : String) (payload : List String)
deriving DecidableEq

/-- One socket.io socket: identity plus the per-connection
`usernameSet` flag. -/
structure IoSocket where
  id : ConnId
  usernameSet : Bool
deriving DecidableEq

/-- The socket.io server state: live sockets and the `connectedUsers`
map from socket id to username. -/
structure IoState where
  socks : List IoSocket
  connectedUsers : List (ConnId × String)
deriving DecidableEq

/-- The `register-username` handler.  Guards in source order:
`usernameSet` already set, invalid (empty after trim) username, and the
duplicate check `existingUsernames.includes(trimmedUsername)` — an exact,
case-sensitive string membership test.  On success the username is stored,
the flag set, and `registration-success`, `user-joined` (to the others)
and `user-list` are emitted. -/
def ioRegisterUsername (s : IoState) (sid : ConnId) (data : String) :
    IoState × List IoEmit :=
  match s.socks.find? (fun k => k.id == sid) with
  | none => (s, [])
  | some sock =>
    if sock.usernameSet then
      (s, [IoEmit.toSelf sid "error" ["Username already set for this connection"]])
    else if jsTrim data = "" then
      (s, [IoEmit.toSelf sid "error" ["Invalid username provided"]])
    else
      let trimmedUsername := jsTrim data
      if trimmedUsername ∈ s.connectedUsers.map Prod.snd then
        (s, [IoEmit.toSelf sid "error" ["Username already taken"]])
      else
        let s' : IoState :=
          { socks := s.socks.map
              (fun k => if k.id == sid then { k with usernameSet := true } else k),
            connectedUsers := mapSet s.connectedUsers sid trimmedUsername }
        (s', [IoEmit.toSelf sid "registration-success" [trimmedUsername],
              IoEmit.broadcastExcept sid "user-joined"
                [trimmedUsername, trimmedUsername ++ " has joined the chat"],
              IoEmit.toSelf sid "user-list" (s'.connectedUsers.map Prod.snd)])

/-- The socket.io `message` handler: unregistered senders get an error,
registered senders' payloads are relayed to all sockets via `io.emit`. -/
def ioMessage (s : IoState) (sid : ConnId) (data : String) :
    IoState × List IoEmit :=
  match mapGet s.connectedUsers sid with
  | none => (s, [IoEmit.toSelf sid "error" ["Please register a username first"]])
  | some username => (s, [IoEmit.toAll "message" [username, data]])

/-- The socket.io `disconnect` handler: drop the socket; if it was
registered, delete its map entry and tell the others it left. -/
def ioDisconnect (s : IoState) (sid : ConnId) : IoState × List IoEmit :=
  let socks' := s.socks.filter (fun k => k.id != sid)
  match mapGet s.connectedUsers sid with
  | some username =>
      ({ socks := socks', connectedUsers := mapDelete s.connectedUsers sid },
       [IoEmit.broadcastExcept sid "user-left"
          [username, username ++ " has left the chat"]])
  | none => ({ s with socks := socks' }, [])

/-- The three inbound events the socket.io server reacts to. -/
inductive IoEvent where
  | registerUsername (sid : ConnId) (data : String)
  | message (sid : ConnId) (data : String)
  | disconnect (sid : ConnId)

/-- One step of the socket.io server. -/
def ioStep (s : IoState) (e : IoEvent) : IoState × List IoEmit :=
  match e with
  | .registerUsername sid data => ioRegisterUsername s sid data
  | .message sid data => ioMessage s sid data
  | .disconnect sid => ioDisconnect s sid

/-! ## `src/unnamed/part_005` (second file) — the `ws.once` variant -/

/-- One websocket of the second `ws` variant: `registered` records whether
the one-shot first-message handler has already fired. -/
structure Ws2Conn where
  id : ConnId
  isOpen : Bool
  registered : Bool
deriving DecidableEq

/-- State of the second `ws` variant. -/
structure Ws2State where
  conns : List Ws2Conn
  clients : List (ConnId × String)
deriving DecidableEq

/-- Broadcast of the second `ws` variant: send to every `OPEN` client. -/
def ws2Broadcast (conns : List Ws2Conn) (msg : String) : List WsAction :=
  (conns.filter (fun c => c.isOpen)).map (fun c => WsAction.send c.id msg)

/-- Message handling of the second `ws` variant.  The first frame
(`ws.once`) becomes the username verbatim (trimmed, with no validation)
and a `joined` notice is broadcast; every later frame is trimmed,
formatted `user: text` (the source comment notes the timestamp and
`said` were removed) and broadcast to every open connection.  A missing
map entry interpolates as the JS string `undefined`. -/
def ws2HandleMessage (s : Ws2State) (cid : ConnId) (data : String) :
    Ws2State × List WsAction :=
  match s.conns.find? (fun c => c.id == cid) with
  | none => (s, [])
  | some c =>
    if c.registered = false then
      let username := jsTrim data
      let s' : Ws2State :=
        { conns := s.conns.map
            (fun d => if d.id == cid then { d with registered := true } else d),
          clients := mapSet s.clients cid username }
      (s', ws2Broadcast s'.conns (username ++ " joined"))
    else
      let text := jsTrim data
      let user := (mapGet s.clients cid).getD "undefined"
      (s, ws2Broadcast s.conns (user ++ ": " ++ text))

/-- Close handling of the second `ws` variant. -/
def ws2HandleClose (s : Ws2State) (cid : ConnId) : Ws2State × List WsAction :=
  let conns' := s.conns.map
    (fun d => if d.id == cid then { d with isOpen := false } else d)
  match mapGet s.clients cid with
  | some username =>
      ({ conns := conns', clients := mapDelete s.clients cid },
       ws2Broadcast conns' (username ++ " left"))
  | none => ({ s with conns := conns' }, [])

/-! ## `src/client/chat.go` — `connectWebsocket` -/

/-- The outcomes of the network operations `connectWebsocket` performs,
in program order: whether the dial succeeds, whether the write of the
auth payload succeeds, and the result of the first read (`none` is a read
error, otherwise message type and frame text).  `json.Marshal` of a
`map[string]string` cannot fail in Go, so no marshal failure is
modelled. -/
structure ClientEnv where
  dialOk : Bool
  writeOk : Bool
  readResult : Option (Nat × String)
deriving DecidableEq

/-- `websocket.TextMessage` of the gorilla library. -/
def websocketTextMessage : Nat := 1

/-- Result of `connectWebsocket`: either a non-nil open connection with a
nil error, or a nil connection with a non-nil error; `closedSocket`
records whether `c.Close()` was called on the way out. -/
inductive ConnectResult where
  | success
  | failure (closedSocket : Bool) (errMsg : String)
deriving DecidableEq

/-- `connectWebsocket` from `src/client/chat.go`: dial, send the JSON
auth payload, read one frame; a text first frame starting with `ERROR:`
closes the socket and returns an error, anything else returns the open
connection. -/
def connectWebsocket (env : ClientEnv) : ConnectResult :=
  if env.dialOk = false then
    ConnectResult.failure false "failed to connect"
  else if env.writeOk = false then
    ConnectResult.failure true "failed to send auth data"
  else
    match env.readResult with
    | none => ConnectResult.failure true "connection error during auth"
    | some (messageType, data) =>
      if messageType = websocketTextMessage ∧ strStartsWith data "ERROR:" = true then
        ConnectResult.failure true ("authentication failed: " ++ data)
      else
        ConnectResult.success

/-! ## Helper lemmas -/

/-- Values of the key-replacing map are the old values or the new one. -/
lemma mem_snd_replace {k : ConnId} {v x : String} (m : List (ConnId × String))
    (hx : x ∈ (m.map (fun p => if p.1 == k then (k, v) else p)).map Prod.snd) :
    x = v ∨ x ∈ m.map Prod.snd := by
  rcases List.mem_map.1 hx with ⟨q, hq, rfl⟩
  rcases List.mem_map.1 hq with ⟨p, hp, rfl⟩
  by_cases h : p.1 = k
  · left; simp [h]
  · right; simp only [beq_iff_eq, h, if_false]
    exact List.mem_map.2 ⟨p, hp, rfl⟩

/-- Replacing at an absent key changes nothing. -/
lemma replace_eq_self {k : ConnId} {v : String} (m : List (ConnId × String))
    (hk : k ∉ m.map Prod.fst) :
    m.map (fun p => if p.1 == k then (k, v) else p) = m := by
  have h : ∀ p ∈ m, (if p.1 == k then ((k, v) : ConnId × String) else p) = p := by
    intro p hp
    have : p.1 ≠ k := fun h => hk (List.mem_map.2 ⟨p, hp, h⟩)
    simp [this]
  calc m.map (fun p => if p.1 == k then (k, v) else p) = m.map (fun p => p) :=
        List.map_congr_left h
    _ = m := List.map_id' m

/-- Replacing one value by a fresh one keeps the value list
duplicate-free, given duplicate-free keys. -/
lemma replace_snd_nodup {k : ConnId} {v : String} :
    ∀ (m : List (ConnId × String)),
      (m.map Prod.fst).Nodup → (m.map Prod.snd).Nodup → v ∉ m.map Prod.snd →
      ((m.map (fun p => if p.1 == k then (k, v) else p)).map Prod.snd).Nodup := by
  intro m
  induction m with
  | nil => intro _ _ _; simp
  | cons p t ih =>
    intro hk hv hnv
    simp only [List.map_cons, List.nodup_cons, List.mem_cons] at hk hv hnv
    push_neg at hnv
    by_cases h : p.1 = k
    · have hb : (p.1 == k) = true := by simp [h]
      have ht : t.map (fun p => if p.1 == k then ((k, v) : ConnId × String) else p) = t :=
        replace_eq_self t (h ▸ hk.1)
      simp only [List.map_cons, hb, if_true, ht, List.nodup_cons]
      exact ⟨hnv.2, hv.2⟩
    · have hb : (p.1 == k) = false := by simp [h]
      simp only [List.map_cons, hb, if_false, List.nodup_cons]
      constructor
      · intro hmem
        rcases mem_snd_replace t hmem with h1 | h1
        · exact hnv.1 h1.symm
        · exact hv.1 h1
      · exact ih hk.2 hv.2 hnv.2

/-- Replacement keeps the key list unchanged. -/
lemma replace_fst_eq {k : ConnId} {v : String} (m : List (ConnId × String)) :
    (m.map (fun p => if p.1 == k then (k, v) else p)).map Prod.fst = m.map Prod.fst := by
  rw [List.map_map]
  apply List.map_congr_left
  intro p _
  by_cases h : p.1 = k
  · simp [h, Function.comp]
  · simp [h, Function.comp]

/-- `mapSet` with a value not already present keeps both the keys and the
values duplicate-free. -/
lemma mapSet_nodup {m : List (ConnId × String)} {k : ConnId} {v : String}
    (hk : (m.map Prod.fst).Nodup) (hv : (m.map Prod.snd).Nodup)
    (hnv : v ∉ m.map Prod.snd) :
    ((mapSet m k v).map Prod.fst).Nodup ∧ ((mapSet m k v).map Prod.snd).Nodup := by
  unfold mapSet
  by_cases h : m.any (fun p => p.1 == k)
  · rw [if_pos h]
    exact ⟨replace_fst_eq m ▸ hk, replace_snd_nodup m hk hv hnv⟩
  · rw [if_neg h]
    have hknew : k ∉ m.map Prod.fst := by
      intro hmem
      rcases List.mem_map.1 hmem with ⟨p, hp, hpk⟩
      exact h (List.any_eq_true.2 ⟨p, hp, by simp [hpk]⟩)
    constructor
    · rw [List.map_append]
      exact List.nodup_append.2 ⟨hk, by simp, by
        intro x hx hx1
        simp only [List.map_cons, List.map_nil, List.mem_singleton] at hx1
        exact hknew (hx1 ▸ hx)⟩
    · rw [List.map_append]
      exact List.nodup_append.2 ⟨hv, by simp, by
        intro x hx hx1
        simp only [List.map_cons, List.map_nil, List.mem_singleton] at hx1
        exact hnv (hx1 ▸ hx)⟩

/-- Any string with `x` in the middle contains `x` as a substring. -/
lemma strContainsSub_of_middle (a x b : String) :
    strContainsSub (a ++ x ++ b) x = true := by
  unfold strContainsSub
  rw [List.any_eq_true]
  refine ⟨x.data ++ b.data, ?_, ?_⟩
  · rw [List.mem_tails]
    show x.data ++ b.data <:+ (a ++ x ++ b).data
    rw [String.data_append, String.data_append]
    exact ⟨a.data, (List.append_assoc _ _ _).symm⟩
  · exact List.isPrefixOf_iff_prefix.mpr (List.prefix_append _ _)

/-- A deleted key is no longer in the map. -/
lemma mapGet_mapDelete (m : List (ConnId × String)) (k : ConnId) :
    mapGet (mapDelete m k) k = none := by
  unfold mapGet mapDelete
  rw [Option.map_eq_none']
  rw [List.find?_eq_none]
  intro x hx
  rcases List.mem_filter.1 hx with ⟨_, hpx⟩
  simp only [bne_iff_ne, ne_eq] at hpx
  simp [hpx]

/-! ## Claim C1 — one live session per username -/

/-- C1, counterexample.  The claim says an authentication attempt for a
username that already has a live session is rejected, so two connections
are never concurrently authenticated under the same username.  In
`server.js` there is no duplicate check: starting from two fresh open
connections, both send the username `alice`; the second attempt is
answered with a join broadcast, not a rejection, and afterwards both
connections are authenticated (`hasUsername`) and registered in `clients`
under `alice` simultaneously. -/
theorem c1_counterexample :
    (wsHandleMessage
        ((wsHandleMessage (⟨[⟨1, true, false⟩, ⟨2, true, false⟩], []⟩ : WsState) 1 "alice").1)
        2 "alice").1
      = ⟨[⟨1, true, true⟩, ⟨2, true, true⟩], [(1, "alice"), (2, "alice")]⟩ ∧
    (wsHandleMessage
        ((wsHandleMessage (⟨[⟨1, true, false⟩, ⟨2, true, false⟩], []⟩ : WsState) 1 "alice").1)
        2 "alice").2
      = [WsAction.send 1 "alice has joined", WsAction.send 2 "alice has joined"] := by decide

/-- C1, amended.  Only the socket.io variant enforces per-username
uniqueness: its `register-username` handler rejects a trimmed username
already present in `connectedUsers` (reason `Username already taken`,
not `AlreadyOnline` — no password is ever involved), so every server
step preserves distinctness of the registered socket ids and usernames;
the `server.js` variant performs no duplicate check and admits concurrent
sessions under one username. -/
theorem c1_io_uniqueness_invariant (s : IoState) (e : IoEvent)
    (hk : (s.connectedUsers.map Prod.fst).Nodup)
    (hv : (s.connectedUsers.map Prod.snd).Nodup) :
    ((ioStep s e).1.connectedUsers.map Prod.fst).Nodup ∧
    ((ioStep s e).1.connectedUsers.map Prod.snd).Nodup := by
  cases e with
  | message sid data =>
      unfold ioStep ioMessage
      cases h : mapGet s.connectedUsers sid <;> simp only [h] <;> exact ⟨hk, hv⟩
  | disconnect sid =>
      unfold ioStep ioDisconnect
      cases h : mapGet s.connectedUsers sid
      · simp only [h]
        exact ⟨hk, hv⟩
      · simp only [h, mapDelete]
        constructor
        · exact hk.sublist ((List.filter_sublist _).map _)
        · exact hv.sublist ((List.filter_sublist _).map _)
  | registerUsername sid data =>
      unfold ioStep ioRegisterUsername
      cases hf : s.socks.find? (fun k => k.id == sid) with
      | none =>
        simp only [hf]
        exact ⟨hk, hv⟩
      | some sock =>
        simp only [hf]
        by_cases h1 : sock.usernameSet = true
        · rw [if_pos h1]
          exact ⟨hk, hv⟩
        · rw [if_neg h1]
          by_cases h2 : jsTrim data = ""
          · rw [if_pos h2]
            exact ⟨hk, hv⟩
          · rw [if_neg h2]
            by_cases h3 : jsTrim data ∈ s.connectedUsers.map Prod.snd
            · rw [if_pos h3]
              exact ⟨hk, hv⟩
            · rw [if_neg h3]
              exact mapSet_nodup hk hv h3

/-- C1, witness: the invariant theorem applied to a concrete registration
step from a duplicate-free state. -/
theorem c1_witness :
    (((⟨[⟨2, false⟩], [(1, "alice")]⟩ : IoState).connectedUsers.map Prod.fst).Nodup ∧
     ((⟨[⟨2, false⟩], [(1, "alice")]⟩ : IoState).connectedUsers.map Prod.snd).Nodup) ∧
    (((ioStep (⟨[⟨2, false⟩], [(1, "alice")]⟩ : IoState)
        (IoEvent.registerUsername 2 "bob")).1.connectedUsers.map Prod.fst).Nodup ∧
     ((ioStep (⟨[⟨2, false⟩], [(1, "alice")]⟩ : IoState)
        (IoEvent.registerUsername 2 "bob")).1.connectedUsers.map Prod.snd).Nodup) :=
  ⟨⟨by decide, by decide⟩, c1_io_uniqueness_invariant _ _ (by decide) (by decide)⟩

/-! ## Claim C2 — broadcast delivery and frame format -/

/-- C2, counterexample.  The claim says each chat line is delivered as
`ts: sender said: body` to every registered session.  In the `ws.once`
variant the frame actually delivered for `hi` from `alice` is
`alice: hi`, which matches no string of the form `ts ++ ": alice said: "
++ body`; and in `server.js` a post-authentication frame is delivered to
nobody at all. -/
theorem c2_counterexample :
    (ws2HandleMessage (⟨[⟨1, true, true⟩, ⟨2, true, true⟩], [(1, "alice"), (2, "bob")]⟩ : Ws2State)
        1 "hi").2
      = [WsAction.send 1 "alice: hi", WsAction.send 2 "alice: hi"] ∧
    (∀ ts body : String, "alice: hi" ≠ ts ++ ": alice said: " ++ body) ∧
    wsHandleMessage (⟨[⟨1, true, true⟩, ⟨2, true, true⟩], [(1, "alice"), (2, "bob")]⟩ : WsState)
        1 "hi"
      = (⟨[⟨1, true, true⟩, ⟨2, true, true⟩], [(1, "alice"), (2, "bob")]⟩, []) := by
  refine ⟨by decide, ?_, by decide⟩
  intro ts body h
  have e0 : (": alice" : String) ++ " said: " = ": alice said: " := by decide
  have e1 : ts ++ ": alice said: " ++ body = (ts ++ ": alice") ++ " said: " ++ body := by
    rw [String.append_assoc ts ": alice" " said: ", e0]
  have h2 : strContainsSub ("alice: hi" : String) " said: " = true := by
    rw [h, e1]
    exact strContainsSub_of_middle _ _ _
  exact absurd h2 (by decide)

/-- C2, amended.  In the `ws.once` variant, an inbound frame from a
registered connection is delivered exactly once to every open connection
(registered or not, the sender included), formatted `user: text` with the
trimmed payload and no timestamp and no `said:`; the server state is
unchanged and nothing is persisted.  In `server.js` post-authentication
frames are only logged, never delivered. -/
theorem c2_ws2_broadcast_format (s : Ws2State) (cid : ConnId) (c : Ws2Conn)
    (u : String) (data : String)
    (hfind : s.conns.find? (fun d => d.id == cid) = some c)
    (hreg : c.registered = true)
    (hu : mapGet s.clients cid = some u) :
    ws2HandleMessage s cid data =
      (s, (s.conns.filter (fun d => d.isOpen)).map
            (fun d => WsAction.send d.id (u ++ ": " ++ jsTrim data))) := by
  unfold ws2HandleMessage
  rw [hfind]
  simp only [hreg, hu, ws2Broadcast, Option.getD_some]
  simp

/-- C2, witness: the broadcast-format theorem applied to a single
registered connection sending a concrete line. -/
theorem c2_witness :
    ((⟨[⟨1, true, true⟩], [(1, "alice")]⟩ : Ws2State).conns.find? (fun d => d.id == 1)
        = some ⟨1, true, true⟩ ∧
     (⟨1, true, true⟩ : Ws2Conn).registered = true ∧
     mapGet (⟨[⟨1, true, true⟩], [(1, "alice")]⟩ : Ws2State).clients 1 = some "alice") ∧
    ws2HandleMessage (⟨[⟨1, true, true⟩], [(1, "alice")]⟩ : Ws2State) 1 " hey " =
      ((⟨[⟨1, true, true⟩], [(1, "alice")]⟩ : Ws2State),
       ((⟨[⟨1, true, true⟩], [(1, "alice")]⟩ : Ws2State).conns.filter (fun d => d.isOpen)).map
         (fun d => WsAction.send d.id ("alice" ++ ": " ++ jsTrim " hey "))) :=
  ⟨⟨by decide, by decide, by decide⟩,
   c2_ws2_broadcast_format _ 1 ⟨1, true, true⟩ "alice" " hey "
     (by decide) (by decide) (by decide)⟩

/-! ## Claim C3 — handshake rejection behaviour -/

/-- C3, counterexample.  The claim says every handshake rejection sends a
frame beginning `ERROR:`, closes the connection, and accepts no further
credential attempt.  In `server.js` the empty-username rejection sends a
frame beginning `Error:` (not `ERROR:`), emits no close action, leaves
the connection state unchanged, and the very next frame `bob` is accepted
as a credential and registered. -/
theorem c3_counterexample :
    wsHandleMessage (⟨[⟨1, true, false⟩], []⟩ : WsState) 1 ""
      = (⟨[⟨1, true, false⟩], []⟩, [WsAction.send 1 emptyUsernameError]) ∧
    strStartsWith emptyUsernameError "ERROR:" = false ∧
    (wsHandleMessage (⟨[⟨1, true, false⟩], []⟩ : WsState) 1 "bob").1
      = ⟨[⟨1, true, true⟩], [(1, "bob")]⟩ := by decide

/-- C3, amended.  On the only handshake rejection `server.js` has (empty
username after trimming), the server sends exactly one frame — the fixed
`Error:`-prefixed text, which does not carry the `ERROR:` marker — emits
no close action, and leaves the state unchanged, so the connection stays
in the awaiting-credentials state and the client may retry on the same
connection. -/
theorem c3_rejection_keeps_connection (s : WsState) (cid : ConnId) (c : WsConn) (data : String)
    (hfind : s.conns.find? (fun d => d.id == cid) = some c)
    (hnew : c.hasUsername = false)
    (hempty : jsTrim data = "") :
    wsHandleMessage s cid data = (s, [WsAction.send cid emptyUsernameError]) ∧
    strStartsWith emptyUsernameError "ERROR:" = false := by
  refine ⟨?_, by decide⟩
  unfold wsHandleMessage
  rw [hfind]
  simp [hnew, hempty]

/-- C3, witness: the rejection theorem applied to a fresh connection
sending a whitespace-only first frame. -/
theorem c3_witness :
    ((⟨[⟨1, true, false⟩], []⟩ : WsState).conns.find? (fun d => d.id == 1)
        = some ⟨1, true, false⟩ ∧
     (⟨1, true, false⟩ : WsConn).hasUsername = false ∧ jsTrim "  " = "") ∧
    (wsHandleMessage (⟨[⟨1, true, false⟩], []⟩ : WsState) 1 "  "
        = (⟨[⟨1, true, false⟩], []⟩, [WsAction.send 1 emptyUsernameError]) ∧
     strStartsWith emptyUsernameError "ERROR:" = false) :=
  ⟨⟨by decide, by decide, by decide⟩,
   c3_rejection_keeps_connection _ 1 ⟨1, true, false⟩ "  "
     (by decide) (by decide) (by decide)⟩

/-! ## Claim C4 — decoding of the first frame -/

/-- C4, counterexample.  The claim says the first frame is decoded as a
structured `username`/`password` payload and anything undecodable is
rejected with `BadCredentialsFormat`.  In `server.js` the first frame
`hello` — not decodable as any structured payload — is not rejected: it
is registered verbatim as the username and a join notice is broadcast. -/
theorem c4_counterexample :
    wsHandleMessage (⟨[⟨1, true, false⟩], []⟩ : WsState) 1 "hello"
      = (⟨[⟨1, true, true⟩], [(1, "hello")]⟩, [WsAction.send 1 "hello has joined"]) := by decide

/-- C4, amended.  `server.js` performs no structured decoding of the
first frame and knows no password: any first frame that is non-empty
after trimming — including the client's JSON auth payload, taken
verbatim — becomes the username, the connection is marked authenticated,
and a join notice is broadcast; only the empty case is answered with the
`Error:` frame, without closing. -/
theorem c4_first_frame_verbatim_username (s : WsState) (cid : ConnId) (c : WsConn) (data : String)
    (hfind : s.conns.find? (fun d => d.id == cid) = some c)
    (hnew : c.hasUsername = false)
    (hne : jsTrim data ≠ "") :
    wsHandleMessage s cid data =
      (let s' : WsState :=
        { conns := s.conns.map
            (fun d => if d.id == cid then { d with hasUsername := true } else d),
          clients := mapSet s.clients cid (jsTrim data) }
       (s', wsBroadcast s'.conns (jsTrim data ++ " has joined"))) := by
  unfold wsHandleMessage
  rw [hfind]
  simp [hnew, hne]

/-- C4, witness: the verbatim-username theorem applied to a concrete
non-empty first frame. -/
theorem c4_witness :
    ((⟨[⟨1, true, false⟩], []⟩ : WsState).conns.find? (fun d => d.id == 1)
        = some ⟨1, true, false⟩ ∧
     (⟨1, true, false⟩ : WsConn).hasUsername = false ∧ jsTrim " guest " ≠ "") ∧
    wsHandleMessage (⟨[⟨1, true, false⟩], []⟩ : WsState) 1 " guest " =
      (let s' : WsState :=
        { conns := (⟨[⟨1, true, false⟩], []⟩ : WsState).conns.map
            (fun d => if d.id == 1 then { d with hasUsername := true } else d),
          clients := mapSet (⟨[⟨1, true, false⟩], []⟩ : WsState).clients 1 (jsTrim " guest ") }
       (s', wsBroadcast s'.conns (jsTrim " guest " ++ " has joined"))) :=
  ⟨⟨by decide, by decide, by decide⟩,
   c4_first_frame_verbatim_username _ 1 ⟨1, true, false⟩ " guest "
     (by decide) (by decide) (by decide)⟩

/-! ## Claim C5 — whisper routing -/

/-- C5, counterexample.  The claim says a `!w bob hello` line from alice
is delivered only to alice and bob (formatted `privately said`), or — if
bob is offline — only a notice to alice.  In the `ws.once` variant, with
alice, bob and carol all online, the line is broadcast verbatim to all
three connections as `alice: !w bob hello`: carol, neither sender nor
target, receives it too, and no `privately said` formatting exists. -/
theorem c5_counterexample :
    (ws2HandleMessage (⟨[⟨1, true, true⟩, ⟨2, true, true⟩, ⟨3, true, true⟩],
        [(1, "alice"), (2, "bob"), (3, "carol")]⟩ : Ws2State) 1 "!w bob hello").2
      = [WsAction.send 1 "alice: !w bob hello", WsAction.send 2 "alice: !w bob hello",
         WsAction.send 3 "alice: !w bob hello"] := by decide

/-- C5, amended.  No server in the repository parses a whisper command:
a line of the shape `!w target body` from a registered connection of the
`ws.once` variant is routed exactly like any other chat line — broadcast
to every open connection as `user: line` — with no private delivery, no
`not online` notice and no persistence. -/
theorem c5_whisper_broadcast_to_all (s : Ws2State) (cid : ConnId) (c : Ws2Conn)
    (u target body : String)
    (hfind : s.conns.find? (fun d => d.id == cid) = some c)
    (hreg : c.registered = true)
    (hu : mapGet s.clients cid = some u) :
    ws2HandleMessage s cid ("!w " ++ target ++ " " ++ body) =
      (s, (s.conns.filter (fun d => d.isOpen)).map
            (fun d => WsAction.send d.id
              (u ++ ": " ++ jsTrim ("!w " ++ target ++ " " ++ body)))) := by
  unfold ws2HandleMessage
  rw [hfind]
  simp only [hreg, hu, ws2Broadcast, Option.getD_some]
  simp

/-- C5, witness: the whisper-broadcast theorem applied with two
registered connections. -/
theorem c5_witness :
    ((⟨[⟨1, true, true⟩, ⟨2, true, true⟩], [(1, "alice"), (2, "bob")]⟩ : Ws2State).conns.find?
        (fun d => d.id == 1) = some ⟨1, true, true⟩ ∧
     (⟨1, true, true⟩ : Ws2Conn).registered = true ∧
     mapGet (⟨[⟨1, true, true⟩, ⟨2, true, true⟩],
        [(1, "alice"), (2, "bob")]⟩ : Ws2State).clients 1 = some "alice") ∧
    ws2HandleMessage (⟨[⟨1, true, true⟩, ⟨2, true, true⟩],
        [(1, "alice"), (2, "bob")]⟩ : Ws2State) 1 ("!w " ++ "bob" ++ " " ++ "hi") =
      ((⟨[⟨1, true, true⟩, ⟨2, true, true⟩], [(1, "alice"), (2, "bob")]⟩ : Ws2State),
       ((⟨[⟨1, true, true⟩, ⟨2, true, true⟩],
          [(1, "alice"), (2, "bob")]⟩ : Ws2State).conns.filter (fun d => d.isOpen)).map
         (fun d => WsAction.send d.id
           ("alice" ++ ": " ++ jsTrim ("!w " ++ "bob" ++ " " ++ "hi")))) :=
  ⟨⟨by decide, by decide, by decide⟩,
   c5_whisper_broadcast_to_all _ 1 ⟨1, true, true⟩ "alice" "bob" "hi"
     (by decide) (by decide) (by decide)⟩

/-! ## Claim C6 — one-shot handshake -/

/-- C6, counterexample.  The claim says after Authenticated or Rejected
no frame is re-parsed as credentials.  In `server.js`, a first frame of
whitespace is Rejected (the `Error:` frame is sent, state unchanged), yet
the next frame `alice` on the same connection is again parsed as a
credential and registers the username. -/
theorem c6_counterexample :
    wsHandleMessage (⟨[⟨1, true, false⟩], []⟩ : WsState) 1 "   "
      = (⟨[⟨1, true, false⟩], []⟩, [WsAction.send 1 emptyUsernameError]) ∧
    (wsHandleMessage (⟨[⟨1, true, false⟩], []⟩ : WsState) 1 "alice").1
      = ⟨[⟨1, true, true⟩], [(1, "alice")]⟩ := by decide

/-- C6, amended.  The one-shot property holds only for the Authenticated
half: once a `server.js` connection has `hasUsername` set, every further
frame takes the post-authentication path, which neither re-parses
credentials nor changes any state nor sends anything.  After a rejection
the connection stays in the awaiting-credentials state and the handshake
can run again (see the counterexample). -/
theorem c6_authenticated_no_reparse (s : WsState) (cid : ConnId) (c : WsConn) (data : String)
    (hfind : s.conns.find? (fun d => d.id == cid) = some c)
    (hauth : c.hasUsername = true) :
    wsHandleMessage s cid data = (s, []) := by
  unfold wsHandleMessage
  rw [hfind]
  simp [hauth]

/-- C6, witness: the no-re-parse theorem applied to an authenticated
connection receiving another frame. -/
theorem c6_witness :
    ((⟨[⟨1, true, true⟩], [(1, "alice")]⟩ : WsState).conns.find? (fun d => d.id == 1)
        = some ⟨1, true, true⟩ ∧
     (⟨1, true, true⟩ : WsConn).hasUsername = true) ∧
    wsHandleMessage (⟨[⟨1, true, true⟩], [(1, "alice")]⟩ : WsState) 1 "yo"
      = (⟨[⟨1, true, true⟩], [(1, "alice")]⟩, []) :=
  ⟨⟨by decide, by decide⟩,
   c6_authenticated_no_reparse _ 1 ⟨1, true, true⟩ "yo" (by decide) (by decide)⟩

/-! ## Claim C7 — disconnect cleanup -/

/-- C7, counterexample.  The claim says closing an authenticated session
also sets the user's `isOnline` flag to false in the Credential Store.
No such store exists in the source; running the `server.js` close handler
for alice removes her session and broadcasts the leave notice to bob, but
any persisted online flag is untouched: alice's entry still reads `true`
afterwards. -/
theorem c7_counterexample :
    sysHandleClose (⟨⟨[⟨1, true, true⟩, ⟨2, true, true⟩], [(1, "alice"), (2, "bob")]⟩,
        [("alice", true), ("bob", true)]⟩ : SysState) 1
      = (⟨⟨[⟨1, false, true⟩, ⟨2, true, true⟩], [(2, "bob")]⟩,
          [("alice", true), ("bob", true)]⟩,
         [WsAction.send 2 "alice has disconnected"]) := by decide

/-- C7, amended.  Closing a registered `server.js` connection removes
exactly that session from the `clients` map and broadcasts one
`has disconnected` notice to each connection still open (the closing one
is no longer open and is excluded); the cleanup is idempotent — a second
close of the same connection finds no username and emits nothing — and
no credential store or `isOnline` flag exists to be updated. -/
theorem c7_close_cleanup (st : SysState) (cid : ConnId) (u : String)
    (hu : mapGet st.ws.clients cid = some u) :
    (sysHandleClose st cid).1.credStore = st.credStore ∧
    mapGet (sysHandleClose st cid).1.ws.clients cid = none ∧
    (sysHandleClose st cid).2 =
      ((st.ws.conns.map (fun d => if d.id == cid then { d with isOpen := false } else d)).filter
        (fun c => c.isOpen)).map
        (fun c => WsAction.send c.id (u ++ " has disconnected")) ∧
    (sysHandleClose (sysHandleClose st cid).1 cid).2 = [] := by
  unfold sysHandleClose wsHandleClose
  rw [hu]
  refine ⟨rfl, ?_, ?_, ?_⟩
  · exact mapGet_mapDelete _ _
  · simp [wsBroadcast]
  · rw [mapGet_mapDelete]

/-- C7, witness: the cleanup theorem applied to alice's session closing
while bob stays online. -/
theorem c7_witness :
    (mapGet (⟨⟨[⟨1, true, true⟩, ⟨2, true, true⟩], [(1, "alice"), (2, "bob")]⟩,
        [("alice", true), ("bob", true)]⟩ : SysState).ws.clients 1 = some "alice") ∧
    ((sysHandleClose (⟨⟨[⟨1, true, true⟩, ⟨2, true, true⟩], [(1, "alice"), (2, "bob")]⟩,
        [("alice", true), ("bob", true)]⟩ : SysState) 1).1.credStore
        = [("alice", true), ("bob", true)] ∧
     mapGet (sysHandleClose (⟨⟨[⟨1, true, true⟩, ⟨2, true, true⟩], [(1, "alice"), (2, "bob")]⟩,
        [("alice", true), ("bob", true)]⟩ : SysState) 1).1.ws.clients 1 = none ∧
     (sysHandleClose (⟨⟨[⟨1, true, true⟩, ⟨2, true, true⟩], [(1, "alice"), (2, "bob")]⟩,
        [("alice", true), ("bob", true)]⟩ : SysState) 1).2 =
       (((⟨⟨[⟨1, true, true⟩, ⟨2, true, true⟩], [(1, "alice"), (2, "bob")]⟩,
          [("alice", true), ("bob", true)]⟩ : SysState).ws.conns.map
            (fun d => if d.id == 1 then { d with isOpen := false } else d)).filter
          (fun c => c.isOpen)).map
          (fun c => WsAction.send c.id ("alice" ++ " has disconnected")) ∧
     (sysHandleClose (sysHandleClose (⟨⟨[⟨1, true, true⟩, ⟨2, true, true⟩],
        [(1, "alice"), (2, "bob")]⟩, [("alice", true), ("bob", true)]⟩ : SysState) 1).1 1).2
       = []) :=
  ⟨by decide, c7_close_cleanup _ 1 "alice" (by decide)⟩

/-! ## Claim C8 — empty post-auth frames -/

/-- C8, counterexample.  The claim says a post-auth frame that trims to
the empty string is dropped silently with nothing delivered.  In the
`ws.once` variant a whitespace-only frame from alice is not dropped: the
frame `alice: ` is delivered to both open connections. -/
theorem c8_counterexample :
    (ws2HandleMessage (⟨[⟨1, true, true⟩, ⟨2, true, true⟩], [(1, "alice"), (2, "bob")]⟩ : Ws2State)
        1 "   ").2
      = [WsAction.send 1 "alice: ", WsAction.send 2 "alice: "] := by decide

/-- C8, amended.  The `ws.once` router has no empty-line check: a frame
that trims to the empty string is broadcast like any other, as the frame
`user: ` (username, colon, space, nothing), to every open connection.
(The `server.js` post-auth path delivers nothing for any frame, empty or
not, as proved for C6.) -/
theorem c8_empty_frame_broadcast (s : Ws2State) (cid : ConnId) (c : Ws2Conn)
    (u : String) (data : String)
    (hfind : s.conns.find? (fun d => d.id == cid) = some c)
    (hreg : c.registered = true)
    (hu : mapGet s.clients cid = some u)
    (hempty : jsTrim data = "") :
    ws2HandleMessage s cid data =
      (s, (s.conns.filter (fun d => d.isOpen)).map
            (fun d => WsAction.send d.id (u ++ ": "))) := by
  unfold ws2HandleMessage
  rw [hfind]
  simp only [hreg, hu, ws2Broadcast, Option.getD_some, hempty, String.append_empty]
  simp

/-- C8, witness: the empty-frame theorem applied to a single-space frame
from a registered connection. -/
theorem c8_witness :
    ((⟨[⟨1, true, true⟩], [(1, "alice")]⟩ : Ws2State).conns.find? (fun d => d.id == 1)
        = some ⟨1, true, true⟩ ∧
     (⟨1, true, true⟩ : Ws2Conn).registered = true ∧
     mapGet (⟨[⟨1, true, true⟩], [(1, "alice")]⟩ : Ws2State).clients 1 = some "alice" ∧
     jsTrim " " = "") ∧
    ws2HandleMessage (⟨[⟨1, true, true⟩], [(1, "alice")]⟩ : Ws2State) 1 " " =
      ((⟨[⟨1, true, true⟩], [(1, "alice")]⟩ : Ws2State),
       ((⟨[⟨1, true, true⟩], [(1, "alice")]⟩ : Ws2State).conns.filter (fun d => d.isOpen)).map
         (fun d => WsAction.send d.id ("alice" ++ ": "))) :=
  ⟨⟨by decide, by decide, by decide, by decide⟩,
   c8_empty_frame_broadcast _ 1 ⟨1, true, true⟩ "alice" " "
     (by decide) (by decide) (by decide) (by decide)⟩

/-! ## Claim C9 — case-sensitive duplicate check -/

/-- C9, confirmed.  The socket.io duplicate check compares the trimmed
requested username against the existing ones by exact, case-sensitive
string equality: with `alice` registered, a second registration of
`alice` is rejected with `Username already taken` and changes nothing,
while `Alice` — differing only in letter case — is accepted, so both are
registered and online simultaneously. -/
theorem c9_case_sensitive_duplicate_check :
    ioRegisterUsername (⟨[⟨1, true⟩, ⟨2, false⟩], [(1, "alice")]⟩ : IoState) 2 "alice"
      = (⟨[⟨1, true⟩, ⟨2, false⟩], [(1, "alice")]⟩,
         [IoEmit.toSelf 2 "error" ["Username already taken"]]) ∧
    (ioRegisterUsername (⟨[⟨1, true⟩, ⟨2, false⟩], [(1, "alice")]⟩ : IoState) 2 "Alice").1
      = ⟨[⟨1, true⟩, ⟨2, true⟩], [(1, "alice"), (2, "Alice")]⟩ ∧
    (ioRegisterUsername (⟨[⟨1, true⟩, ⟨2, false⟩], [(1, "alice")]⟩ : IoState) 2 "Alice").2
      = [IoEmit.toSelf 2 "registration-success" ["Alice"],
         IoEmit.broadcastExcept 2 "user-joined" ["Alice", "Alice has joined the chat"],
         IoEmit.toSelf 2 "user-list" ["alice", "Alice"]] := by
  refine ⟨by decide, by decide, by decide⟩

/-! ## Claim C10 — client connect result -/

/-- C10, confirmed.  `connectWebsocket` returns the open connection
exactly when the dial, the write of the auth payload and the first read
all succeed and the first frame is not a text frame beginning `ERROR:`;
in every other case it returns a nil connection with a non-nil error, and
`c.Close()` has been called precisely when the dial had produced a socket
(after a dial failure there is no socket to close). -/
theorem c10_connect_success_iff (env : ClientEnv) :
    (connectWebsocket env = ConnectResult.success ↔
      (env.dialOk = true ∧ env.writeOk = true ∧
       ∃ mt data, env.readResult = some (mt, data) ∧
         ¬(mt = websocketTextMessage ∧ strStartsWith data "ERROR:" = true))) ∧
    (connectWebsocket env = ConnectResult.success ∨
     ∃ m, connectWebsocket env = ConnectResult.failure env.dialOk m) := by
  rcases env with ⟨d, w, r⟩
  cases d
  · simp [connectWebsocket]
  · cases w
    · simp [connectWebsocket]
    · cases r with
      | none => simp [connectWebsocket]
      | some p =>
        rcases p with ⟨mt, data⟩
        by_cases h : mt = websocketTextMessage ∧ strStartsWith data "ERROR:" = true
        · simp [connectWebsocket, h]
        · simp only [connectWebsocket, if_neg h]
          constructor
          · constructor
            · intro _
              refine ⟨by trivial, by trivial, ⟨mt, data, rfl, h⟩⟩
            · intro _
              simp
          · left; simp
